import Mathlib

/-!
Verification of the EMR Serverless Livy client (`livytest.py`).

This file gives a shallow embedding of the client's core logic:

* `sendAux` / `send_request` embed `EMRServerlessClient._send_request`.
  The network is modelled by an environment `env : Nat → Outcome` giving
  the outcome of each successive sign-and-exchange attempt (the k-th
  attempt performed, 0-indexed).  The embedding records the value the
  Python function produces (`SendResult`), the list of `time.sleep`
  durations performed in order, and how many times the request was
  signed and exchanged.

* `waitLoopAux` / `wait_for_session_ready` embed
  `EMRServerlessClient.wait_for_session_ready`, and `stmtLoopAux` /
  `get_statement_result` embed `EMRServerlessClient.get_statement_result`.
  Wall-clock time is modelled discretely: the loop guard
  `time.time() - start_time < self.timeout` is checked against an
  `elapsed` counter that advances by `poll_interval` at each
  `time.sleep(poll_interval)`.  The loops recurse on an explicit fuel;
  `fuel = timeout + 1` is sufficient whenever `poll_interval ≥ 1`, and
  a `diverge` result marks the (source-level) infinite loop possible
  only when `poll_interval = 0`.

* `create_session`, `submit_statement`, `delete_session` embed the
  corresponding methods.  The mutable field `self.session_url` is passed
  and returned explicitly.  Python exceptions are modelled with
  `Except` / dedicated result constructors.

In `requests`, a `Response` object is truthy iff its status code is
below 400; the polling loops' `if not response:` test is embedded as a
check `400 ≤ status_code` (with `None` as a separate case).
-/

/-- Parsed JSON body of a service response: the two fields the client
and its callers read (`state`, and the statement `result` payload). -/
structure Body where
  state : Option String
  result : Option Int
deriving DecidableEq

/-- An HTTP response as the client observes it: status code, the
`location` header, and the parsed JSON body. -/
structure Response where
  status_code : Nat
  location : Option String
  body : Body
deriving DecidableEq

/-- Outcome of one sign-and-exchange attempt inside `_send_request`:
either a `requests.exceptions.RequestException` is raised (`exn`), or a
response object comes back (`resp`). -/
inductive Outcome where
  | exn : Outcome
  | resp (r : Response) : Outcome
deriving DecidableEq

/-- What `_send_request` produces: a returned response object
(`return response`), the bare `return None` reached when the retry
budget is exhausted on retryable statuses, or a re-raised
`RequestException` (`raise`). -/
inductive SendResult where
  | returned (r : Response) : SendResult
  | noneResult : SendResult
  | raised : SendResult
deriving DecidableEq

/-- Observable effects of one `_send_request` call: its result, the
`time.sleep` durations performed in order, and how many times the
request was signed (`self.signer.add_auth`) and exchanged. -/
structure SendOut where
  result : SendResult
  sleeps : List Nat
  signs : Nat
  attempts : Nat
deriving DecidableEq

/-- The base of the exponential backoff: the literal `2` in
`wait_time = 2 ** retry_count`. -/
def base_backoff_seconds : Nat := 2

/-- The statuses the dispatcher retries:
`[429, 500, 502, 503, 504]` in the source. -/
def retryable_statuses : List Nat := [429, 500, 502, 503, 504]

/-- Embedding of the `while retry_count < max_retries` loop of
`_send_request`.  `remaining = max_retries - retry_count` (the loop
guard holds iff `remaining > 0`) and `rc` is the current value of
`retry_count`.  Each iteration signs and sends once; a 2xx response is
returned at once; a retryable status sleeps `2 ** (rc+1)` seconds and
loops (even when that was the last attempt); any other response is
returned without retry; a network exception sleeps and loops while
`rc + 1 < max_retries` and re-raises otherwise.  Falling out of the
loop yields the `return None` at the end of the function. -/
def sendAux (env : Nat → Outcome) : Nat → Nat → SendOut
  | 0, _ => ⟨.noneResult, [], 0, 0⟩
  | remaining + 1, rc =>
    match env rc with
    | .resp r =>
      if 200 ≤ r.status_code ∧ r.status_code < 300 then
        ⟨.returned r, [], 1, 1⟩
      else if r.status_code ∈ retryable_statuses then
        let out := sendAux env remaining (rc + 1)
        ⟨out.result, base_backoff_seconds ^ (rc + 1) :: out.sleeps,
          out.signs + 1, out.attempts + 1⟩
      else
        ⟨.returned r, [], 1, 1⟩
    | .exn =>
      if remaining = 0 then
        ⟨.raised, [], 1, 1⟩
      else
        let out := sendAux env remaining (rc + 1)
        ⟨out.result, base_backoff_seconds ^ (rc + 1) :: out.sleeps,
          out.signs + 1, out.attempts + 1⟩

/-- `_send_request` with the given `max_retries`: run the loop from
`retry_count = 0`. -/
def send_request (env : Nat → Outcome) (max_retries : Nat) : SendOut :=
  sendAux env max_retries 0

/-- Result of `wait_for_session_ready`: the `raise` when no session is
active, a propagated transport exception from a poll whose retries were
exhausted, the model-level marker for the infinite loop possible when
`poll_interval = 0`, or the returned boolean. -/
inductive WaitRes where
  | noSession : WaitRes
  | transport : WaitRes
  | diverge : WaitRes
  | done (b : Bool) : WaitRes
deriving DecidableEq

/-- The body of one iteration of the `wait_for_session_ready` loop,
given what `_send_request('GET', session_url)` produced: `none` means
"sleep `poll_interval` and continue" (no response, falsy response, or a
non-ready non-terminal state); `some w` means the loop ends with `w`. -/
def waitDecision (o : SendResult) : Option WaitRes :=
  match o with
  | .raised => some .transport
  | .noneResult => none
  | .returned r =>
    if 400 ≤ r.status_code then none
    else
      if r.body.state.getD "unknown" = "idle" then some (.done true)
      else if r.body.state.getD "unknown" = "error" ∨
          r.body.state.getD "unknown" = "dead" ∨
          r.body.state.getD "unknown" = "killed" then some (.done false)
      else none

/-- The `while time.time() - start_time < self.timeout` polling loop of
`wait_for_session_ready`.  `elapsed` models `time.time() - start_time`
(it advances by `poll_interval` at each sleep), `i` numbers the polls,
and `fuel` bounds the recursion (`timeout + 1` suffices whenever
`poll_interval ≥ 1`).  Leaving the loop returns `False`. -/
def waitLoopAux (env : Nat → SendResult) (timeout poll_interval : Nat) :
    Nat → Nat → Nat → WaitRes
  | 0, elapsed, _ =>
    if elapsed < timeout then .diverge else .done false
  | fuel + 1, elapsed, i =>
    if elapsed < timeout then
      match waitDecision (env i) with
      | some w => w
      | none => waitLoopAux env timeout poll_interval fuel (elapsed + poll_interval) (i + 1)
    else .done false

/-- `wait_for_session_ready`: raise if `self.session_url` is unset,
otherwise run the polling loop.  `env k` is what the k-th
`_send_request('GET', session_url)` produces. -/
def wait_for_session_ready (session_url : Option String)
    (env : Nat → SendResult) (timeout poll_interval : Nat) : WaitRes :=
  match session_url with
  | none => .noSession
  | some _ => waitLoopAux env timeout poll_interval (timeout + 1) 0 0

/-- Result of `get_statement_result`: a propagated transport exception,
the model-level divergence marker, or the returned value — `done none`
is the `return None` on timeout, `done (some d)` returns the statement
record `d` (reached both on `available` and on `error`/`cancelled`). -/
inductive StmtRes where
  | transport : StmtRes
  | diverge : StmtRes
  | done (d : Option Body) : StmtRes
deriving DecidableEq

/-- The body of one iteration of the `get_statement_result` loop: `none`
means "sleep and continue", `some res` ends the loop with `res`. -/
def stmtDecision (o : SendResult) : Option StmtRes :=
  match o with
  | .raised => some .transport
  | .noneResult => none
  | .returned r =>
    if 400 ≤ r.status_code then none
    else
      if r.body.state.getD "unknown" = "available" then some (.done (some r.body))
      else if r.body.state.getD "unknown" = "error" ∨
          r.body.state.getD "unknown" = "cancelled" then some (.done (some r.body))
      else none

/-- The polling loop of `get_statement_result`, with the same discrete
time model as `waitLoopAux`.  Leaving the loop returns `None`. -/
def stmtLoopAux (env : Nat → SendResult) (timeout poll_interval : Nat) :
    Nat → Nat → Nat → StmtRes
  | 0, elapsed, _ =>
    if elapsed < timeout then .diverge else .done none
  | fuel + 1, elapsed, i =>
    if elapsed < timeout then
      match stmtDecision (env i) with
      | some res => res
      | none => stmtLoopAux env timeout poll_interval fuel (elapsed + poll_interval) (i + 1)
    else .done none

/-- `get_statement_result`: poll `statement_location` until the loop
decides or the timeout elapses.  `env k` is what the k-th
`_send_request('GET', statement_location)` produces. -/
def get_statement_result (statement_location : String)
    (env : Nat → SendResult) (timeout poll_interval : Nat) : StmtRes :=
  match statement_location with
  | _ => stmtLoopAux env timeout poll_interval (timeout + 1) 0 0

/-- The exceptions the session/statement operations raise. -/
inductive ClientError where
  | transport : ClientError
  | requestFailed : ClientError
  | missingLocation : ClientError
  | noActiveSession : ClientError
deriving DecidableEq

/-- `create_session`: given the prior `self.session_url` and what
`_send_request('POST', "/sessions", data)` produced, return the
operation's outcome together with the new `self.session_url`.
The guard `if not response or response.status_code >= 300` raises
before touching `self.session_url` (a falsy response has status ≥ 400,
subsumed by the `≥ 300` check; `None` is the separate case); otherwise
the assignment `self.session_url = response.headers.get('location')`
happens first, and only then is the missing-header exception raised. -/
def create_session (session_url : Option String) (o : SendResult) :
    Except ClientError Body × Option String :=
  match o with
  | .raised => (.error .transport, session_url)
  | .noneResult => (.error .requestFailed, session_url)
  | .returned r =>
    if 300 ≤ r.status_code then
      (.error .requestFailed, session_url)
    else
      match r.location with
      | none => (.error .missingLocation, none)
      | some loc => (.ok r.body, some loc)

/-- `submit_statement`: raise if no session is active; POST to
`<session_url>/statements`; raise on no/failing response; raise if the
`location` header is absent; otherwise return the statement location
and the parsed body. -/
def submit_statement (session_url : Option String) (o : SendResult) :
    Except ClientError (String × Body) :=
  match session_url with
  | none => .error .noActiveSession
  | some _ =>
    match o with
    | .raised => .error .transport
    | .noneResult => .error .requestFailed
    | .returned r =>
      if 300 ≤ r.status_code then
        .error .requestFailed
      else
        match r.location with
        | none => .error .missingLocation
        | some loc => .ok (loc, r.body)

/-- `delete_session`: given the current `self.session_url` and what
`_send_request('DELETE', session_url)` would produce, return the
operation's result (`Except` models a propagated transport exception)
together with the new `self.session_url`.  With no active session it
returns `False` at once without sending anything. -/
def delete_session (session_url : Option String) (o : SendResult) :
    Except ClientError Bool × Option String :=
  match session_url with
  | none => (.ok false, none)
  | some u =>
    match o with
    | .raised => (.error .transport, some u)
    | .noneResult => (.ok false, some u)
    | .returned r =>
      if 300 ≤ r.status_code then
        (.ok false, some u)
      else
        (.ok true, none)

/-- A retryable 503 response with an empty body. -/
def resp503 : Response := ⟨503, none, ⟨none, none⟩⟩

/-- A plain 200 response with an empty body. -/
def resp200 : Response := ⟨200, none, ⟨none, none⟩⟩

/-- Every exchange yields a 503. -/
def envAll503 : Nat → Outcome := fun _ => .resp resp503

/-- Every exchange raises a network-level exception. -/
def envAllExn : Nat → Outcome := fun _ => .exn

/-- Exchange outcomes with statuses 503, 503, 200, ... -/
def env503_503_200 : Nat → Outcome := fun k =>
  if k < 2 then .resp resp503 else .resp resp200

/-- A 200 poll response whose body reports state `starting`. -/
def respStarting : Response := ⟨200, none, ⟨some "starting", none⟩⟩

/-- A 200 poll response whose body reports state `idle`. -/
def respIdle : Response := ⟨200, none, ⟨some "idle", none⟩⟩

/-- A 200 poll response whose body reports state `dead`. -/
def respDead : Response := ⟨200, none, ⟨some "dead", none⟩⟩

/-- A 200 poll response whose body reports state `available` with
result `2`. -/
def respAvailable : Response := ⟨200, none, ⟨some "available", some 2⟩⟩

/-- A 404 response with an empty body. -/
def resp404 : Response := ⟨404, none, ⟨none, none⟩⟩

/-- A 201 submission response carrying the statement location header
and a `waiting` statement record. -/
def respSubmit : Response :=
  ⟨201, some "/sessions/0/statements/0", ⟨some "waiting", none⟩⟩

/-- Every poll returns a session still `starting`. -/
def envStartingForever : Nat → SendResult := fun _ => .returned respStarting

/-- Every poll returns a `dead` session. -/
def envDeadForever : Nat → SendResult := fun _ => .returned respDead

/-- First poll sees `starting`, later polls see `idle`. -/
def envStartThenIdle : Nat → SendResult := fun k =>
  if k = 0 then .returned respStarting else .returned respIdle

/-- First poll sees `starting`, later polls see `dead`. -/
def envStartThenDead : Nat → SendResult := fun k =>
  if k = 0 then .returned respStarting else .returned respDead

/-- Every poll of the statement returns `available` with result 2. -/
def envAvailable : Nat → SendResult := fun _ => .returned respAvailable

/-- Every poll of `_send_request` returns `None`. -/
def envPollNone : Nat → SendResult := fun _ => .noneResult

/-- Every sleep the dispatcher performs has value
`base_backoff_seconds ^ (rc + k + 1)` where `k` is the sleep's position
in the run and `rc` the `retry_count` the run started from: the code
always sleeps `2 ** retry_count` right after incrementing
`retry_count`. -/
theorem sendAux_sleeps_get? (env : Nat → Outcome) :
    ∀ remaining rc k x, (sendAux env remaining rc).sleeps[k]? = some x →
      x = base_backoff_seconds ^ (rc + k + 1) := by
  intro remaining
  induction remaining with
  | zero =>
    intro rc k x h
    simp [sendAux] at h
  | succ n ih =>
    intro rc k x h
    cases henv : env rc with
    | resp r =>
      simp only [sendAux, henv] at h
      by_cases h2xx : 200 ≤ r.status_code ∧ r.status_code < 300
      · rw [if_pos h2xx] at h
        simp at h
      · rw [if_neg h2xx] at h
        by_cases hret : r.status_code ∈ retryable_statuses
        · rw [if_pos hret] at h
          cases k with
          | zero =>
            simp at h
            simpa using h.symm
          | succ k =>
            simp at h
            rw [ih (rc + 1) k x h]
            congr 1
            omega
        · rw [if_neg hret] at h
          simp at h
    | exn =>
      simp only [sendAux, henv] at h
      by_cases h0 : n = 0
      · rw [if_pos h0] at h
        simp at h
      · rw [if_neg h0] at h
        cases k with
        | zero =>
          simp at h
          simpa using h.symm
        | succ k =>
          simp at h
          rw [ih (rc + 1) k x h]
          congr 1
          omega

/-- Each loop iteration signs the request exactly once and performs
exactly one exchange, and at most `remaining` further iterations run. -/
theorem sendAux_signs_attempts (env : Nat → Outcome) :
    ∀ remaining rc,
      (sendAux env remaining rc).signs = (sendAux env remaining rc).attempts ∧
      (sendAux env remaining rc).attempts ≤ remaining := by
  intro remaining
  induction remaining with
  | zero =>
    intro rc
    simp [sendAux]
  | succ n ih =>
    intro rc
    cases henv : env rc with
    | resp r =>
      simp only [sendAux, henv]
      by_cases h2xx : 200 ≤ r.status_code ∧ r.status_code < 300
      · rw [if_pos h2xx]
        simp
      · rw [if_neg h2xx]
        by_cases hret : r.status_code ∈ retryable_statuses
        · rw [if_pos hret]
          have h := ih (rc + 1)
          simp only []
          exact ⟨by simp [h.1], by simp; omega⟩
        · rw [if_neg hret]
          simp
    | exn =>
      simp only [sendAux, henv]
      by_cases h0 : n = 0
      · rw [if_pos h0]
        simp
      · rw [if_neg h0]
        have h := ih (rc + 1)
        exact ⟨by simp [h.1], by simp; omega⟩

/-- When every exchange outcome is a retryable status, the loop sleeps
after every attempt (including the last), exhausts `remaining` attempts
and falls through to `return None`. -/
theorem sendAux_all_retryable (env : Nat → Outcome)
    (hret : ∀ k, ∃ r, env k = .resp r ∧ r.status_code ∈ retryable_statuses) :
    ∀ remaining rc,
      (sendAux env remaining rc).result = .noneResult ∧
      (sendAux env remaining rc).sleeps.length = remaining ∧
      (sendAux env remaining rc).attempts = remaining := by
  intro remaining
  induction remaining with
  | zero =>
    intro rc
    simp [sendAux]
  | succ n ih =>
    intro rc
    obtain ⟨r, hr, hmem⟩ := hret rc
    have hnot2xx : ¬ (200 ≤ r.status_code ∧ r.status_code < 300) := by
      have hmem2 := hmem
      simp [retryable_statuses] at hmem2
      omega
    have h := ih (rc + 1)
    simp only [sendAux, hr]
    rw [if_neg hnot2xx, if_pos hmem]
    exact ⟨by simp [h.1], by simp [h.2.1], by simp [h.2.2]⟩

/-- When every exchange raises a network-level exception and at least
one attempt is allowed, the loop re-raises after `remaining` attempts,
having slept after every failed attempt except the last. -/
theorem sendAux_all_exn (env : Nat → Outcome) (hexn : ∀ k, env k = .exn) :
    ∀ remaining rc, 1 ≤ remaining →
      (sendAux env remaining rc).result = .raised ∧
      (sendAux env remaining rc).sleeps.length + 1 = remaining ∧
      (sendAux env remaining rc).attempts = remaining := by
  intro remaining
  induction remaining with
  | zero =>
    intro rc h
    exact absurd h (by omega)
  | succ n ih =>
    intro rc _
    by_cases h0 : n = 0
    · subst h0
      simp [sendAux, hexn rc]
    · have h := ih (rc + 1) (by omega)
      simp only [sendAux, hexn rc]
      rw [if_neg h0]
      exact ⟨by simp [h.1], by simp [h.2.1], by simp [h.2.2]⟩

/-- If no poll ever decides the session loop, it runs until the
cumulative elapsed time reaches the timeout and then returns `False`. -/
theorem waitLoopAux_timeout (env : Nat → SendResult) (timeout poll_interval : Nat)
    (hcont : ∀ k, waitDecision (env k) = none) :
    ∀ fuel elapsed i, timeout ≤ elapsed + fuel * poll_interval →
      waitLoopAux env timeout poll_interval fuel elapsed i = .done false := by
  intro fuel
  induction fuel with
  | zero =>
    intro elapsed i h
    have hel : ¬ elapsed < timeout := by omega
    simp [waitLoopAux, hel]
  | succ n ih =>
    intro elapsed i h
    by_cases hel : elapsed < timeout
    · simp only [waitLoopAux]
      rw [if_pos hel, hcont i]
      exact ih (elapsed + poll_interval) (i + 1) (by rw [Nat.succ_mul] at h; omega)
    · simp [waitLoopAux, hel]

/-- If the polls before poll `k` do not decide the session loop and
poll `k` decides it with `w`, and poll `k` happens before the timeout
elapses, the loop ends with `w`. -/
theorem waitLoopAux_reach (env : Nat → SendResult) (timeout poll_interval : Nat)
    (w : WaitRes) :
    ∀ k fuel elapsed i,
      (∀ j, j < k → waitDecision (env (i + j)) = none) →
      waitDecision (env (i + k)) = some w →
      elapsed + k * poll_interval < timeout → k < fuel →
      waitLoopAux env timeout poll_interval fuel elapsed i = w := by
  intro k
  induction k with
  | zero =>
    intro fuel elapsed i _ hdec hel hfuel
    cases fuel with
    | zero => exact absurd hfuel (by omega)
    | succ n =>
      have hel2 : elapsed < timeout := by omega
      simp only [Nat.add_zero] at hdec
      simp only [waitLoopAux]
      rw [if_pos hel2, hdec]
  | succ k ih =>
    intro fuel elapsed i hprev hdec hel hfuel
    cases fuel with
    | zero => exact absurd hfuel (by omega)
    | succ n =>
      have hel2 : elapsed < timeout := by omega
      have h0 : waitDecision (env i) = none := by
        have := hprev 0 (by omega)
        simpa using this
      simp only [waitLoopAux]
      rw [if_pos hel2, h0]
      apply ih n (elapsed + poll_interval) (i + 1)
      · intro j hj
        have := hprev (j + 1) (by omega)
        rw [show i + (j + 1) = i + 1 + j from by omega] at this
        exact this
      · rw [show i + 1 + k = i + (k + 1) from by omega]
        exact hdec
      · rw [Nat.succ_mul] at hel
        omega
      · omega

/-- If no poll ever decides the statement loop, it runs until the
cumulative elapsed time reaches the timeout and then returns `None`. -/
theorem stmtLoopAux_timeout (env : Nat → SendResult) (timeout poll_interval : Nat)
    (hcont : ∀ k, stmtDecision (env k) = none) :
    ∀ fuel elapsed i, timeout ≤ elapsed + fuel * poll_interval →
      stmtLoopAux env timeout poll_interval fuel elapsed i = .done none := by
  intro fuel
  induction fuel with
  | zero =>
    intro elapsed i h
    have hel : ¬ elapsed < timeout := by omega
    simp [stmtLoopAux, hel]
  | succ n ih =>
    intro elapsed i h
    by_cases hel : elapsed < timeout
    · simp only [stmtLoopAux]
      rw [if_pos hel, hcont i]
      exact ih (elapsed + poll_interval) (i + 1) (by rw [Nat.succ_mul] at h; omega)
    · simp [stmtLoopAux, hel]

/-- C1 counterexample: with the default `max_retries = 3` and every
exchange yielding a retryable 503, `_send_request` does not return the
final failing response — it falls out of the loop and returns `None`.
The claim that exhaustion on retryable statuses returns the failing
non-2xx response (not an absent/None result) is therefore false. -/
theorem c1_counterexample :
    (send_request envAll503 3).result = .noneResult ∧
    ¬ (send_request envAll503 3).result = .returned resp503 := by
  decide

/-- C1 amended: for every retry budget, when every exchange outcome is
a retryable status the exhausted dispatcher returns `None` (an absent
result), having slept after every failed attempt including the last
(`max_retries` sleeps for `max_retries` attempts). -/
theorem c1_exhausted_retryable_returns_none (env : Nat → Outcome) (max_retries : Nat)
    (hret : ∀ k, ∃ r, env k = .resp r ∧ r.status_code ∈ retryable_statuses) :
    (send_request env max_retries).result = .noneResult ∧
    (send_request env max_retries).sleeps.length = max_retries ∧
    (send_request env max_retries).attempts = max_retries :=
  sendAux_all_retryable env hret max_retries 0

/-- C1 amended, witness at a concrete input: all-503 outcomes with the
default budget of 3. -/
theorem c1_exhausted_retryable_returns_none_witness :
    (send_request envAll503 3).result = .noneResult ∧
    (send_request envAll503 3).sleeps.length = 3 ∧
    (send_request envAll503 3).attempts = 3 :=
  c1_exhausted_retryable_returns_none envAll503 3
    (fun _ => ⟨resp503, rfl, by decide⟩)

/-- C2 counterexample: with `max_retries = 3` and every exchange
yielding a retryable 503, the request is signed and exchanged 3 times,
not `max_retries + 1 = 4` times — the loop `while retry_count <
max_retries` performs at most `max_retries` attempts. -/
theorem c2_counterexample :
    (send_request envAll503 3).attempts = 3 ∧
    ¬ (send_request envAll503 3).attempts = 3 + 1 := by
  decide

/-- C2 amended: for every call, the request is signed and the exchange
performed up to `max_retries` times (attempts 1 through `max_retries`),
with a fresh signature computed on each attempt (one signing per
exchange). -/
theorem c2_signed_fresh_each_attempt (env : Nat → Outcome) (max_retries : Nat) :
    (send_request env max_retries).signs = (send_request env max_retries).attempts ∧
    (send_request env max_retries).attempts ≤ max_retries :=
  sendAux_signs_attempts env max_retries 0

/-- C3 counterexample: with outcome statuses `[503, 503, 200]` and
`max_retries = 2` (which satisfies the claim's `max_retries ≥ 2`),
`_send_request` never reaches the 200: it returns `None`. -/
theorem c3_counterexample :
    2 ≤ 2 ∧
    (send_request env503_503_200 2).result = .noneResult ∧
    ¬ (send_request env503_503_200 2).result = .returned resp200 := by
  decide

/-- C3 amended: if the successive exchange outcomes have statuses
`[503, 503, 200]` and `max_retries ≥ 3`, `_send_request` returns the
200 response and performs exactly the two backoff sleeps `[2, 4]`. -/
theorem c3_two_503_then_200 (env : Nat → Outcome) (r0 r1 r2 : Response)
    (max_retries : Nat)
    (he0 : env 0 = .resp r0) (hs0 : r0.status_code = 503)
    (he1 : env 1 = .resp r1) (hs1 : r1.status_code = 503)
    (he2 : env 2 = .resp r2) (hs2 : r2.status_code = 200)
    (hmr : 3 ≤ max_retries) :
    (send_request env max_retries).result = .returned r2 ∧
    (send_request env max_retries).sleeps = [2, 4] := by
  obtain ⟨m, rfl⟩ : ∃ m, max_retries = m + 3 := ⟨max_retries - 3, by omega⟩
  simp only [send_request]
  rw [show m + 3 = m + 2 + 1 from rfl, show m + 2 = m + 1 + 1 from rfl]
  simp [sendAux, he0, he1, he2, hs0, hs1, hs2, retryable_statuses,
    base_backoff_seconds]

/-- C3 amended, witness at a concrete input: the outcome sequence
503, 503, 200 with `max_retries = 3`. -/
theorem c3_two_503_then_200_witness :
    (send_request env503_503_200 3).result = .returned resp200 ∧
    (send_request env503_503_200 3).sleeps = [2, 4] :=
  c3_two_503_then_200 env503_503_200 resp503 resp503 resp200 3
    (by decide) (by decide) (by decide) (by decide) (by decide) (by decide)
    (by decide)

/-- C5: when every exchange fails at the network level and at least one
attempt is allowed, the dispatcher sleeps the backoff and retries while
attempts remain and re-raises the transport exception once the budget
is exhausted, with no sleep after the final failed attempt (one fewer
sleep than attempts), each sleep being `base_backoff_seconds ^ n` after
the n-th attempt. -/
theorem c5_network_failure_exhaustion (env : Nat → Outcome) (max_retries : Nat)
    (hmr : 1 ≤ max_retries) (hexn : ∀ k, env k = .exn) :
    (send_request env max_retries).result = .raised ∧
    (send_request env max_retries).attempts = max_retries ∧
    (send_request env max_retries).sleeps.length + 1 = max_retries ∧
    ∀ k x, (send_request env max_retries).sleeps[k]? = some x →
      x = base_backoff_seconds ^ (k + 1) := by
  have h := sendAux_all_exn env hexn max_retries 0 hmr
  refine ⟨h.1, h.2.2, h.2.1, ?_⟩
  intro k x hx
  have hx2 : (sendAux env max_retries 0).sleeps[k]? = some x := hx
  have := sendAux_sleeps_get? env max_retries 0 k x hx2
  simpa using this

/-- C5 witness at a concrete input: all exchanges raise, budget 3. -/
theorem c5_network_failure_exhaustion_witness :
    (send_request envAllExn 3).result = .raised ∧
    (send_request envAllExn 3).attempts = 3 ∧
    (send_request envAllExn 3).sleeps.length + 1 = 3 := by
  have h := c5_network_failure_exhaustion envAllExn 3 (by decide) (fun _ => rfl)
  exact ⟨h.1, h.2.1, h.2.2.1⟩

/-- C6: whatever the exchange outcomes, the k-th backoff sleep of a
`_send_request` run (0-indexed; it follows attempt k+1 and precedes
attempt k+2) equals `base_backoff_seconds ^ (k + 1)`, i.e. `base ^ n`
for the 1-indexed attempt n = k+1; the sequence is a deterministic
function of the position alone (no jitter) and strictly increasing. -/
theorem c6_backoff_values (env : Nat → Outcome) (max_retries k : Nat)
    (h : k < (send_request env max_retries).sleeps.length) :
    (send_request env max_retries).sleeps.get ⟨k, h⟩ =
      base_backoff_seconds ^ (k + 1) ∧
    ∀ (h2 : k + 1 < (send_request env max_retries).sleeps.length),
      (send_request env max_retries).sleeps.get ⟨k, h⟩ <
        (send_request env max_retries).sleeps.get ⟨k + 1, h2⟩ := by
  have hget : ∀ j (hj : j < (send_request env max_retries).sleeps.length),
      (send_request env max_retries).sleeps.get ⟨j, hj⟩ =
        base_backoff_seconds ^ (j + 1) := by
    intro j hj
    have h1 : (sendAux env max_retries 0).sleeps[j]? =
        some ((send_request env max_retries).sleeps.get ⟨j, hj⟩) := by
      simp [List.getElem?_eq_getElem hj, send_request]
    have := sendAux_sleeps_get? env max_retries 0 j _ h1
    simpa using this
  refine ⟨hget k h, ?_⟩
  intro h2
  rw [hget k h, hget (k + 1) h2]
  exact Nat.pow_lt_pow_right (by decide) (by omega)

/-- C6 witness at a concrete input: the all-503 run with budget 3 has
sleeps `[2, 4, 8]`; its first sleep is `base ^ 1` and is smaller than
the second. -/
theorem c6_backoff_values_witness :
    (send_request envAll503 3).sleeps.get ⟨0, by decide⟩ =
      base_backoff_seconds ^ (0 + 1) ∧
    (send_request envAll503 3).sleeps.get ⟨0, by decide⟩ <
      (send_request envAll503 3).sleeps.get ⟨1, by decide⟩ := by
  have h := c6_backoff_values envAll503 3 0 (by decide)
  exact ⟨h.1, h.2 (by decide)⟩

/-- C4 counterexample: polling a session that reports `starting` until
the timeout elapses returns exactly the same value (`False`) that a
`dead` session produces — there is no timeout-specific `TimeoutError`
anywhere in the code, so the two failures are not distinguishable. -/
theorem c4_counterexample :
    wait_for_session_ready (some "s") envStartingForever 1 1 = .done false ∧
    wait_for_session_ready (some "s") envDeadForever 5 1 = .done false := by
  exact ⟨by decide, by decide⟩

/-- C4 amended: on cumulative timeout with no ready/terminal state
observed, `wait_for_session_ready` returns `False` (the same value as
for a remote terminal state — no distinct `TimeoutError` signal) and
`get_statement_result` returns `None`; a single failed poll (a `None`
from `_send_request`) never causes failure by itself — here every poll
fails and each loop still only ends when the timeout elapses. -/
theorem c4_timeout_returns (u loc : String) (env env2 : Nat → SendResult)
    (timeout poll_interval : Nat) (hpi : 1 ≤ poll_interval)
    (h1 : ∀ k, env k = .noneResult) (h2 : ∀ k, env2 k = .noneResult) :
    wait_for_session_ready (some u) env timeout poll_interval = .done false ∧
    get_statement_result loc env2 timeout poll_interval = .done none := by
  constructor
  · show waitLoopAux env timeout poll_interval (timeout + 1) 0 0 = .done false
    apply waitLoopAux_timeout env timeout poll_interval (fun k => by rw [h1 k]; rfl)
    have : timeout + 1 ≤ (timeout + 1) * poll_interval :=
      Nat.le_mul_of_pos_right _ hpi
    omega
  · show stmtLoopAux env2 timeout poll_interval (timeout + 1) 0 0 = .done none
    apply stmtLoopAux_timeout env2 timeout poll_interval (fun k => by rw [h2 k]; rfl)
    have : timeout + 1 ≤ (timeout + 1) * poll_interval :=
      Nat.le_mul_of_pos_right _ hpi
    omega

/-- C4 amended, witness at a concrete input: every poll yields `None`,
timeout 3, poll interval 1. -/
theorem c4_timeout_returns_witness :
    wait_for_session_ready (some "s") envPollNone 3 1 = .done false ∧
    get_statement_result "loc" envPollNone 3 1 = .done none :=
  c4_timeout_returns "s" "loc" envPollNone envPollNone 3 1 (by decide)
    (fun _ => rfl) (fun _ => rfl)

/-- C7: `delete_session` with an active session and a 2xx response
returns `True` and clears the owned session location; called again with
no active session it is a no-op returning `False` — whatever the
network would have produced — and never an exception. -/
theorem c7_delete_session_twice (u : String) (r : Response) (o : SendResult)
    (h2xx : 200 ≤ r.status_code ∧ r.status_code < 300) :
    delete_session (some u) (.returned r) = (.ok true, none) ∧
    delete_session none o = (.ok false, none) := by
  constructor
  · have hn : ¬ 300 ≤ r.status_code := by omega
    simp [delete_session, hn]
  · rfl

/-- C7 witness at a concrete input: delete with a 200 response, then
delete again with no session. -/
theorem c7_delete_session_twice_witness :
    delete_session (some "/sessions/0") (.returned resp200) = (.ok true, none) ∧
    delete_session none (.returned resp200) = (.ok false, none) :=
  c7_delete_session_twice "/sessions/0" resp200 (.returned resp200) (by decide)

/-- C8: if the polls before poll k do not decide the loop (no response,
falsy response, or a non-ready non-terminal state such as `starting`)
and poll k happens within the timeout window and yields a truthy
response, then state `idle` makes `wait_for_session_ready` return
`True` at once, and a state in `{error, dead, killed}` makes it return
`False` — a value, not an exception. -/
theorem c8_first_decisive_poll (env : Nat → SendResult) (u : String)
    (timeout poll_interval k : Nat) (r : Response) (hpi : 1 ≤ poll_interval)
    (hprev : ∀ j, j < k → waitDecision (env j) = none)
    (henv : env k = .returned r) (hok : r.status_code < 400)
    (hwin : k * poll_interval < timeout) :
    (r.body.state = some "idle" →
      wait_for_session_ready (some u) env timeout poll_interval = .done true) ∧
    (∀ s, r.body.state = some s → (s = "error" ∨ s = "dead" ∨ s = "killed") →
      wait_for_session_ready (some u) env timeout poll_interval = .done false) := by
  have h400 : ¬ 400 ≤ r.status_code := by omega
  have happly : ∀ w, waitDecision (env k) = some w →
      wait_for_session_ready (some u) env timeout poll_interval = w := by
    intro w hw
    show waitLoopAux env timeout poll_interval (timeout + 1) 0 0 = w
    apply waitLoopAux_reach env timeout poll_interval w k (timeout + 1) 0 0
    · intro j hj
      have := hprev j hj
      simpa using this
    · simpa using hw
    · omega
    · have : k ≤ k * poll_interval := Nat.le_mul_of_pos_right k hpi
      omega
  constructor
  · intro hidle
    apply happly
    simp [waitDecision, henv, h400, hidle]
  · intro s hs hterm
    apply happly
    rcases hterm with h | h | h <;> subst h <;>
      simp [waitDecision, henv, h400, hs]

/-- C8 witness at concrete inputs: one `starting` poll followed by an
`idle` poll yields `True`; one `starting` poll followed by a `dead`
poll yields `False`. -/
theorem c8_first_decisive_poll_witness :
    wait_for_session_ready (some "s") envStartThenIdle 3 1 = .done true ∧
    wait_for_session_ready (some "s") envStartThenDead 3 1 = .done false := by
  constructor
  · exact (c8_first_decisive_poll envStartThenIdle "s" 3 1 1 respIdle (by decide)
      (fun j hj => by
        have hj0 : j = 0 := by omega
        subst hj0
        decide)
      (by decide) (by decide) (by decide)).1 rfl
  · exact (c8_first_decisive_poll envStartThenDead "s" 3 1 1 respDead (by decide)
      (fun j hj => by
        have hj0 : j = 0 := by omega
        subst hj0
        decide)
      (by decide) (by decide) (by decide)).2 "dead" rfl (Or.inr (Or.inl rfl))

/-- C9: round-trip — with an active session, submitting the statement
`1 + 1` against a mocked service that returns a location header on
submission and whose polls reply state `available` with result 2 yields
that statement location and a final statement record with state
`available` and result 2. -/
theorem c9_round_trip :
    submit_statement (some "/sessions/0") (.returned respSubmit) =
      .ok ("/sessions/0/statements/0", respSubmit.body) ∧
    get_statement_result "/sessions/0/statements/0" envAvailable 300 2 =
      .done (some ⟨some "available", some 2⟩) := by
  exact ⟨rfl, by decide⟩

/-- C10: `create_session` raises before touching the owned session
handle when the creation request yields no response, a propagated
transport error, or a non-2xx (≥ 300) response — the previous handle is
preserved; but a sub-300 response lacking a `location` header first
overwrites the handle with `None` and only then raises the
missing-header protocol exception, losing any previously held
session. -/
theorem c10_create_session_handle (prev : Option String) (r : Response) :
    create_session prev .raised = (.error .transport, prev) ∧
    create_session prev .noneResult = (.error .requestFailed, prev) ∧
    (300 ≤ r.status_code →
      create_session prev (.returned r) = (.error .requestFailed, prev)) ∧
    (r.status_code < 300 → r.location = none →
      create_session prev (.returned r) = (.error .missingLocation, none)) := by
  refine ⟨rfl, rfl, ?_, ?_⟩
  · intro h
    simp [create_session, h]
  · intro h hloc
    have hn : ¬ 300 ≤ r.status_code := by omega
    simp [create_session, hn, hloc]

/-- C10 witness at concrete inputs: a previously held handle survives a
404 response and a `None` response, but a 200 response without a
location header clobbers it with `None` before the raise. -/
theorem c10_create_session_handle_witness :
    create_session (some "/sessions/old") (.returned resp200) =
      (.error .missingLocation, none) ∧
    create_session (some "/sessions/old") .noneResult =
      (.error .requestFailed, some "/sessions/old") ∧
    create_session (some "/sessions/old") (.returned resp404) =
      (.error .requestFailed, some "/sessions/old") := by
  refine ⟨?_, ?_, ?_⟩
  · exact (c10_create_session_handle (some "/sessions/old") resp200).2.2.2
      (by decide) rfl
  · exact (c10_create_session_handle (some "/sessions/old") resp200).2.1
  · exact (c10_create_session_handle (some "/sessions/old") resp404).2.2.1
      (by decide)

